import Mathlib

/-!
# Verification of the vital-sign listener pipeline

A shallow embedding of `src/Vital-signs/vital_sign_listener.py`
(class `VitalSignListener`) and `src/Vital-signs/vital_sign_listener_debug.py`
(class `VitalSignListenerDebug`).

Modelling conventions:
* Python floats are modelled as `ℚ` (the program only compares and copies
  them; no float-specific behaviour is relied upon by the verified
  properties).
* `datetime` values (the NBP timestamp `temp_l[4][1]`, the connection start
  `temp_l[10][1]`) are modelled as `Int` seconds on an absolute clock, so
  that Python's `(v - w).total_seconds()` is `(v - w : ℤ)` and datetime
  equality is integer equality.  The JSON field `measured_at` is stored as
  that integer; `strftime` formatting is injective presentation and is not
  modelled.
* Python strings are Lean `String`s; truthiness of a string is `≠ ""`.
* The device object is opaque: one loop iteration consumes a `PollInput`
  holding the result of `dev.get_vital_signs()` (a `Snapshot`) and the
  result (or failure) of `dev.get_patient_data()`.
* The HTTP POST itself is external; `send_vital_signs` is modelled as the
  construction of the request payload together with the patient name used
  in the emitted record line.
-/

/-- Python whitespace, as recognised by `str.split()` / `str.strip()`. -/
def isPySpace (c : Char) : Bool :=
  c == ' ' || c == '\t' || c == '\n' || c == '\r' || c == '\x0b' || c == '\x0c'

/-- `str.strip()` on a character list: drop leading and trailing whitespace. -/
def stripChars (cs : List Char) : List Char :=
  ((cs.dropWhile isPySpace).reverse.dropWhile isPySpace).reverse

/-- Python `s.strip()`. -/
def pyStrip (s : String) : String := ⟨stripChars s.data⟩

/-- Worker for `str.split()` with no argument: `w` is the current word,
reversed; whitespace runs separate words and produce no empty words. -/
def splitWSGo : List Char → List Char → List (List Char)
  | [], w => if w = [] then [] else [w.reverse]
  | c :: rest, w =>
    if isPySpace c then
      if w = [] then splitWSGo rest [] else w.reverse :: splitWSGo rest []
    else splitWSGo rest (c :: w)

/-- Python `s.split()` (no separator argument), at the character-list level. -/
def splitWS (cs : List Char) : List (List Char) := splitWSGo cs []

/-- `' '.join(tokens)` at the character-list level. -/
def joinSp : List (List Char) → List Char
  | [] => []
  | [t] => t
  | t :: t' :: ts => t ++ ' ' :: joinSp (t' :: ts)

/-- Python `' '.join(s.split())`: collapse whitespace runs to single spaces
and trim the ends. This is the clean-up applied to `patient_name` and
`patient_id` in `send_vital_signs` (lines 66-67). -/
def normalizeWS (s : String) : String := ⟨joinSp (splitWS s.data)⟩

/-- Python `int(q)` on a float: truncation toward zero. -/
def pyInt (q : ℚ) : Int := if 0 ≤ q then ⌊q⌋ else ⌈q⌉

/-- Python `round(q, 1)`: one decimal digit.  (Python rounds float ties to
even; ties at the second decimal are immaterial to every property proved
here, which only concerns which fields are present.) -/
def round1 (q : ℚ) : ℚ := (round (q * 10) : ℤ) / 10

/-- The device sentinel/error code filtered by the listener. -/
def sentinel : ℚ := 8388607

/-- The quantisation constant `0.000125` used for the continuous tick clock. -/
def tickUnit : ℚ := 0.000125

/-- `datetime.strptime("01.01.1990 00:00:00", ...)`, the initial value of
`last_NBP_time`, as seconds on the absolute clock (Unix epoch). -/
def initNBPTime : Int := 631152000

/-- One result of `dev.get_vital_signs()`: the entries of the list `temp_l`
that the listener reads.  `temp_field`/`resp_field` are `none` when the
list is too short or the conversion fails (`temp_l[11]`, `temp_l[12]`),
in which case the code uses `0`. -/
structure Snapshot where
  bp_sys : ℚ          -- temp_l[0][1]
  bp_dias : ℚ         -- temp_l[1][1]
  nbp_time : Int      -- temp_l[4][1], a datetime
  oxygen : ℚ          -- temp_l[5][1]
  heart_rate : ℚ      -- temp_l[6][1]
  tick8 : ℚ           -- temp_l[8][1]
  tick9 : ℚ           -- temp_l[9][1]
  conn_start : Int    -- temp_l[10][1], a datetime
  temp_field : Option ℚ   -- temp_l[11][1] when present
  resp_field : Option ℚ   -- temp_l[12][1] when present
deriving DecidableEq, Repr

/-- Raw result of `dev.get_patient_data()`: `patient_data[0][1]` (id),
`patient_data[1][1]` (prename / given name), `patient_data[2][1]`
(name / family name), already coerced to strings. -/
structure RawPatient where
  pid : String
  prename : String
  pname : String
deriving DecidableEq, Repr

/-- What one iteration of the polling loop consumes from the device:
the snapshot, and the patient fetch (`none` models `get_patient_data`
raising an exception). -/
structure PollInput where
  fetch : Option RawPatient
  snap : Snapshot
deriving DecidableEq, Repr

/-- Listener configuration read from the environment at startup. -/
structure Config where
  api_username : String
  api_password : String
  refresh_interval : Nat
deriving DecidableEq, Repr

/-- The instance attributes of `VitalSignListener` mutated by the loop:
the last-known patient identity and the per-channel last-valid cache.
These live on `self` and persist for the whole process run. -/
structure InstanceState where
  last_patient_name : String
  last_patient_id : String
  last_valid_heart_rate : ℚ
  last_valid_oxygen : ℚ
  last_valid_temp : ℚ
  last_valid_resp_rate : ℚ
deriving DecidableEq, Repr

/-- The locals of `run` that carry state between iterations: the
continuous-clock watermark, the NBP watermark and the refresh counter. -/
structure SessionState where
  last_vital_time : ℚ
  last_NBP_time : Int
  refresh_counter : Nat
deriving DecidableEq, Repr

/-- Initial values of the loop locals (lines 162-164 of the listener). -/
def freshSession : SessionState :=
  { last_vital_time := 0, last_NBP_time := initNBPTime, refresh_counter := 0 }

/-- The instance state at construction (`__init__`). -/
def initInstance : InstanceState :=
  { last_patient_name := "", last_patient_id := ""
    last_valid_heart_rate := 0, last_valid_oxygen := 0
    last_valid_temp := 0, last_valid_resp_rate := 0 }

/-- The JSON body built by `send_vital_signs`.  Required keys are plain
fields; each optional key is an `Option` that is `some` exactly when the
code executes the corresponding `payload[...] = ...` assignment. -/
structure ApiPayload where
  username : String
  password : String
  patient_code : String
  measured_at : Int
  blood_pressure_systolic : Option Int
  blood_pressure_diastolic : Option Int
  pulse_rate : Option Int
  spo2 : Option ℚ
  temperature : Option ℚ
  respiratory_rate : Option ℚ
deriving DecidableEq, Repr

/-- One call to `send_vital_signs`: the POSTed payload plus the cleaned
patient name used in the emitted record line (`patient_info`). -/
structure SendCall where
  payload : ApiPayload
  record_name : String
deriving DecidableEq, Repr

/-- `VitalSignListener.send_vital_signs` (lines 54-104): clean up the
patient strings, then build the payload; each optional vital is included
only when it passes its bounds check. -/
def send_vital_signs (cfg : Config) (patient_name patient_id : String)
    (heart_rate oxygen bp_sys bp_dias temperature resp_rate : ℚ)
    (timestamp : Int) : SendCall :=
  let patient_name := normalizeWS patient_name
  let patient_id := normalizeWS patient_id
  { payload :=
      { username := cfg.api_username
        password := cfg.api_password
        patient_code := patient_id
        measured_at := timestamp
        blood_pressure_systolic :=
          if bp_sys > 0 ∧ bp_sys < 300 then some (pyInt bp_sys) else none
        blood_pressure_diastolic :=
          if bp_dias > 0 ∧ bp_dias < 200 then some (pyInt bp_dias) else none
        pulse_rate :=
          if heart_rate > 0 ∧ heart_rate < 300 then some (pyInt heart_rate) else none
        spo2 :=
          if oxygen > 0 ∧ oxygen ≤ 100 then some (round1 oxygen) else none
        temperature :=
          if temperature > 20 ∧ temperature < 50 then some (round1 temperature) else none
        respiratory_rate :=
          if resp_rate > 0 ∧ resp_rate < 100 then some (pyInt resp_rate) else none }
    record_name := patient_name }

/-- Lines 177-193 of the listener: fetch patient data, strip each field,
compose the full name, and fall back to the stored last-known values when
the fetch failed or yielded empty fields.  Returns the `(patient_id,
full_name)` pair in effect for this iteration. -/
def fetchIdentity (st : InstanceState) (fetch : Option RawPatient) :
    String × String :=
  match fetch with
  | none =>
      (if st.last_patient_id ≠ "" then st.last_patient_id else "",
       if st.last_patient_name ≠ "" then st.last_patient_name else "")
  | some r =>
      let patient_id := if r.pid ≠ "" then pyStrip r.pid else ""
      let patient_prename := if r.prename ≠ "" then pyStrip r.prename else ""
      let patient_name := if r.pname ≠ "" then pyStrip r.pname else ""
      let full_name := pyStrip (patient_prename ++ " " ++ patient_name)
      let patient_id :=
        if patient_id = "" then
          (if st.last_patient_id ≠ "" then st.last_patient_id else "")
        else patient_id
      let full_name :=
        if full_name = "" then
          (if st.last_patient_name ≠ "" then st.last_patient_name else "")
        else full_name
      (patient_id, full_name)

/-- Lines 195-203: store the identity when it changed, but only when the
iteration's patient id is non-empty. -/
def updateIdentity (st : InstanceState) (patient_id full_name : String) :
    InstanceState :=
  if full_name ≠ st.last_patient_name ∨ patient_id ≠ st.last_patient_id then
    if patient_id ≠ "" then
      { st with last_patient_name := full_name, last_patient_id := patient_id }
    else st
  else st

/-- The continuous clock value computed each iteration (line 206):
`((temp_l[8][1]*0.000125)/60) - ((temp_l[9][1]*0.000125)/60)`. -/
def diffTime (snap : Snapshot) : ℚ :=
  snap.tick8 * tickUnit / 60 - snap.tick9 * tickUnit / 60

/-- Lines 206-235: on a continuous-update trigger (`diff_time` differs
from the watermark `last_vital_time`), read the raw channels and overwrite
each last-valid cache entry whose guard passes; then advance the
continuous watermark.  Shared verbatim by the debug listener
(lines 329-345 of `vital_sign_listener_debug.py`). -/
def processVitals (snap : Snapshot) (inst : InstanceState)
    (last_vital_time : ℚ) : InstanceState × ℚ :=
  if diffTime snap ≠ last_vital_time then
    let current_oxygen := snap.oxygen
    let current_heart_rate := snap.heart_rate
    let current_temp := snap.temp_field.getD 0
    let current_resp_rate := snap.resp_field.getD 0
    let inst :=
      { inst with
        last_valid_heart_rate :=
          if current_heart_rate < 300 ∧ current_heart_rate ≠ sentinel then
            current_heart_rate
          else inst.last_valid_heart_rate
        last_valid_oxygen :=
          if current_oxygen ≤ 100 ∧ current_oxygen ≠ sentinel then
            current_oxygen
          else inst.last_valid_oxygen
        last_valid_temp :=
          if current_temp > 20 ∧ current_temp < 50 ∧ current_temp ≠ sentinel then
            current_temp
          else inst.last_valid_temp
        last_valid_resp_rate :=
          if current_resp_rate > 0 ∧ current_resp_rate < 100 ∧
              current_resp_rate ≠ sentinel then
            current_resp_rate
          else inst.last_valid_resp_rate }
    (inst, diffTime snap)
  else (inst, last_vital_time)

/-- Result of the NBP block: the possibly-advanced NBP watermark, the
emitted send call when one happened, and whether the "No patient ID
available" warning was logged. -/
structure NbpResult where
  last_NBP_time : Int
  emitted : Option SendCall
  warned : Bool
deriving DecidableEq, Repr

/-- Lines 237-271 of `VitalSignListener.run`: the NBP trigger.  When the
snapshot's BP timestamp is later than the connection start and differs
from the watermark, either send (patient id present) or warn (absent),
and in both cases advance the watermark to the triggering timestamp. -/
def processNBP (cfg : Config) (snap : Snapshot)
    (patient_id full_name : String) (inst : InstanceState)
    (last_NBP_time : Int) : NbpResult :=
  let v := snap.nbp_time
  let w := snap.conn_start
  if v - w > 0 ∧ last_NBP_time ≠ v then
    let bp_sys := snap.bp_sys
    let bp_dias := snap.bp_dias
    if patient_id ≠ "" then
      { last_NBP_time := v
        emitted := some (send_vital_signs cfg full_name patient_id
          inst.last_valid_heart_rate inst.last_valid_oxygen
          bp_sys bp_dias inst.last_valid_temp inst.last_valid_resp_rate v)
        warned := false }
    else
      { last_NBP_time := v, emitted := none, warned := true }
  else
    { last_NBP_time := last_NBP_time, emitted := none, warned := false }

/-- The outcome of one iteration of the main loop. -/
structure StepResult where
  inst : InstanceState
  sess : SessionState
  emitted : Option SendCall
  warned : Bool
deriving DecidableEq, Repr

/-- One iteration of the `while True` body of `VitalSignListener.run`
(lines 167-274): refresh-counter bookkeeping, identity fetch and update,
continuous-channel processing, then the NBP trigger. -/
def listenerStep (cfg : Config) (inst : InstanceState) (sess : SessionState)
    (inp : PollInput) : StepResult :=
  let rc := sess.refresh_counter + 1
  let rc := if rc ≥ cfg.refresh_interval then 0 else rc
  let idp := fetchIdentity inst inp.fetch
  let inst := updateIdentity inst idp.1 idp.2
  let pv := processVitals inp.snap inst sess.last_vital_time
  let nbp := processNBP cfg inp.snap idp.1 idp.2 pv.1 sess.last_NBP_time
  { inst := pv.1
    sess := { last_vital_time := pv.2, last_NBP_time := nbp.last_NBP_time
              refresh_counter := rc }
    emitted := nbp.emitted
    warned := nbp.warned }

/-- Run the main loop over a list of poll inputs, collecting the emitted
send calls in order. -/
def runList (cfg : Config) (inst : InstanceState) (sess : SessionState) :
    List PollInput → (InstanceState × SessionState) × List SendCall
  | [] => ((inst, sess), [])
  | i :: rest =>
    let r := listenerStep cfg inst sess i
    let rec' := runList cfg r.inst r.sess rest
    (rec'.1, r.emitted.toList ++ rec'.2)

/-! ## The debug listener (`vital_sign_listener_debug.py`)

`VitalSignListenerDebug` shares the identity, cache and NBP logic with the
main listener, with three differences: each poll first checks
`dev.is_active` (raising `ConnectionError` to the reconnect loop when
false), a temperature-probe debug block tracks `dev.p_temp`, and the NBP
block skips readings with `bp_sys < 10` (advancing the watermark,
emitting nothing, logging nothing) before the send/warn choice.

Its `run` is an outer reconnect loop: each (re)connection re-initialises
the loop locals `last_vital_time`, `last_NBP_time`, `refresh_counter`,
`connection_error_count` (lines 206-213) and then enters
`_data_collection_loop`; the instance attributes (`self.last_patient_*`,
`self.last_valid_*`, `self.last_p_temp`, `self.temp_history`) are not
re-initialised. -/

/-- What one iteration of the debug data-collection loop consumes:
the `is_active` flag, the patient fetch, the snapshot, and `dev.p_temp`. -/
structure DebugPoll where
  active : Bool
  fetch : Option RawPatient
  snap : Snapshot
  p_temp : ℚ
deriving DecidableEq, Repr

/-- The debug listener's instance attributes mutated by the loop. -/
structure DebugPersistent where
  inst : InstanceState
  last_p_temp : ℚ
  temp_history : List (ℚ × Nat)
deriving DecidableEq, Repr

/-- The locals of `_data_collection_loop` (passed in from `run` or local
to the loop) that carry state between its iterations. -/
structure DebugSession where
  last_vital_time : ℚ
  last_NBP_time : Int
  refresh_counter : Nat
  connection_error_count : Nat
  poll_count : Nat
deriving DecidableEq, Repr

/-- The loop locals as re-initialised on every (re)connection
(lines 206-209 and 236 of the debug listener). -/
def freshDebugSession : DebugSession :=
  { last_vital_time := 0, last_NBP_time := initNBPTime
    refresh_counter := 0, connection_error_count := 0, poll_count := 0 }

/-- Lines 347-386 of `_data_collection_loop`: the debug NBP trigger.
Identical to `processNBP` except that a triggering reading with
`bp_sys < 10` is skipped (`continue`) after advancing the watermark,
with no emission and no warning. -/
def processNBPDebug (cfg : Config) (snap : Snapshot)
    (patient_id full_name : String) (inst : InstanceState)
    (last_NBP_time : Int) : NbpResult :=
  let v := snap.nbp_time
  let w := snap.conn_start
  if v - w > 0 ∧ last_NBP_time ≠ v then
    let bp_sys := snap.bp_sys
    let bp_dias := snap.bp_dias
    if bp_sys < 10 then
      { last_NBP_time := v, emitted := none, warned := false }
    else if patient_id ≠ "" then
      { last_NBP_time := v
        emitted := some (send_vital_signs cfg full_name patient_id
          inst.last_valid_heart_rate inst.last_valid_oxygen
          bp_sys bp_dias inst.last_valid_temp inst.last_valid_resp_rate v)
        warned := false }
    else
      { last_NBP_time := v, emitted := none, warned := true }
  else
    { last_NBP_time := last_NBP_time, emitted := none, warned := false }

/-- The outcome of one iteration of the debug data-collection loop. -/
structure DebugStepResult where
  pers : DebugPersistent
  sess : DebugSession
  emitted : Option SendCall
  warned : Bool
deriving DecidableEq, Repr

/-- One iteration of the body of `_data_collection_loop` (lines 239-389)
for an active device: poll counter, refresh counter, identity fetch and
update, the temperature-probe debug block, the shared continuous-channel
block, then the debug NBP trigger. -/
def debugStep (cfg : Config) (p : DebugPersistent) (s : DebugSession)
    (i : DebugPoll) : DebugStepResult :=
  let poll_count := s.poll_count + 1
  let rc := s.refresh_counter + 1
  let rc := if rc ≥ cfg.refresh_interval then 0 else rc
  let idp := fetchIdentity p.inst i.fetch
  let inst := updateIdentity p.inst idp.1 idp.2
  let current_p_temp := i.p_temp
  let temp_history :=
    if current_p_temp ≠ p.last_p_temp ∧ current_p_temp > 0 ∧
        current_p_temp ≠ sentinel then
      p.temp_history ++ [(current_p_temp, poll_count)]
    else p.temp_history
  let last_p_temp :=
    if current_p_temp ≠ p.last_p_temp then current_p_temp else p.last_p_temp
  let pv := processVitals i.snap inst s.last_vital_time
  let nbp := processNBPDebug cfg i.snap idp.1 idp.2 pv.1 s.last_NBP_time
  { pers := { inst := pv.1, last_p_temp := last_p_temp
              temp_history := temp_history }
    sess := { last_vital_time := pv.2, last_NBP_time := nbp.last_NBP_time
              refresh_counter := rc, connection_error_count := 0
              poll_count := poll_count }
    emitted := nbp.emitted
    warned := nbp.warned }

/-- One device session: iterate `debugStep` over the polls until the list
ends or the device reports inactive (the `ConnectionError` that returns
control to the reconnect loop).  Returns the persistent state carried out
of the session and the send calls it emitted. -/
def debugSessionLoop (cfg : Config) (p : DebugPersistent) (s : DebugSession) :
    List DebugPoll → DebugPersistent × List SendCall
  | [] => (p, [])
  | i :: rest =>
    if i.active then
      let r := debugStep cfg p s i
      let k := debugSessionLoop cfg r.pers r.sess rest
      (k.1, r.emitted.toList ++ k.2)
    else (p, [])

/-- The outer reconnect loop of `VitalSignListenerDebug.run`: each session
starts from `freshDebugSession` (the loop locals are re-initialised on
every reconnection) while the persistent instance state flows through. -/
def debugRun (cfg : Config) (p : DebugPersistent) :
    List (List DebugPoll) → DebugPersistent × List SendCall
  | [] => (p, [])
  | sess :: rest =>
    let a := debugSessionLoop cfg p freshDebugSession sess
    let b := debugRun cfg a.1 rest
    (b.1, a.2 ++ b.2)

/-! ## Normal-form predicates for whitespace-normalised strings -/

/-- No character of the list is Python whitespace. -/
def noSpaceChar (t : List Char) : Bool := t.all (fun c => !isPySpace c)

/-- Every token is non-empty and whitespace-free. -/
def tokensOK (ts : List (List Char)) : Bool :=
  ts.all (fun t => !t.isEmpty && noSpaceChar t)

/-- The list does not start with a whitespace character. -/
def noLeadWS : List Char → Bool
  | [] => true
  | c :: _ => !isPySpace c

/-- No two adjacent characters are both whitespace: every internal
whitespace run has length one. -/
def noDouble : List Char → Bool
  | a :: b :: l => (!(isPySpace a && isPySpace b)) && noDouble (b :: l)
  | _ => true

/-! ## Concrete fixtures used by counterexamples and witnesses -/

/-- A concrete configuration. -/
def cfg0 : Config :=
  { api_username := "u", api_password := "pw", refresh_interval := 10 }

/-- A snapshot whose NBP timestamp and systolic value vary; ticks are equal
(no continuous-update trigger), connection started at clock 0. -/
def snapA (t : Int) (sys : ℚ) : Snapshot :=
  { bp_sys := sys, bp_dias := 80, nbp_time := t, oxygen := 98, heart_rate := 72
    tick8 := 0, tick9 := 0, conn_start := 0, temp_field := none
    resp_field := none }

/-- A poll with a fixed, complete patient identity. -/
def inpA (t : Int) : PollInput :=
  { fetch := some ⟨"ID1", "John", "Doe"⟩, snap := snapA t 120 }

/-- A snapshot carrying heart rate 0 and SpO2 0 on a continuous-update
trigger (`diffTime` is 1, differing from the fresh watermark 0). -/
def snapLow : Snapshot :=
  { bp_sys := 0, bp_dias := 0, nbp_time := 0, oxygen := 0, heart_rate := 0
    tick8 := 480000, tick9 := 0, conn_start := 0, temp_field := none
    resp_field := none }

/-- An instance state with a populated last-valid cache. -/
def instCache : InstanceState :=
  { last_patient_name := "John Doe", last_patient_id := "ID1"
    last_valid_heart_rate := 72, last_valid_oxygen := 98
    last_valid_temp := 37, last_valid_resp_rate := 16 }

/-- An instance state with a stored name but no stored patient id. -/
def instNoId : InstanceState :=
  { last_patient_name := "Old Name", last_patient_id := ""
    last_valid_heart_rate := 72, last_valid_oxygen := 98
    last_valid_temp := 0, last_valid_resp_rate := 0 }

/-- The poll of the claimed normalisation example: given name
`"  John   Michael "`, family name `" Doe"`. -/
def inpNorm : PollInput :=
  { fetch := some ⟨"MRN 7", "  John   Michael ", " Doe"⟩, snap := snapA 100 120 }

/-- An active debug poll with a fixed identity, varying NBP timestamp and
systolic value. -/
def dpoll (t : Int) (sys : ℚ) : DebugPoll :=
  { active := true, fetch := some ⟨"ID1", "John", "Doe"⟩, snap := snapA t sys
    p_temp := 0 }

/-- The debug listener's persistent state at construction. -/
def dpers0 : DebugPersistent :=
  { inst := initInstance, last_p_temp := 0, temp_history := [] }

/-! ## Helper lemmas -/

/-- Python `x if x else ""` on a string is the string itself. -/
theorem ite_ne_empty_self (s : String) : (if s ≠ "" then s else "") = s := by
  by_cases h : s = "" <;> simp [h]

/-- `updateIdentity` only writes the two identity fields. -/
theorem updateIdentity_cache (st : InstanceState) (a b : String) :
    (updateIdentity st a b).last_valid_heart_rate = st.last_valid_heart_rate ∧
    (updateIdentity st a b).last_valid_oxygen = st.last_valid_oxygen ∧
    (updateIdentity st a b).last_valid_temp = st.last_valid_temp ∧
    (updateIdentity st a b).last_valid_resp_rate = st.last_valid_resp_rate := by
  unfold updateIdentity
  split_ifs <;> simp

/-- `processVitals` only writes the four cache fields. -/
theorem processVitals_identity (snap : Snapshot) (inst : InstanceState)
    (t : ℚ) :
    (processVitals snap inst t).1.last_patient_id = inst.last_patient_id ∧
    (processVitals snap inst t).1.last_patient_name = inst.last_patient_name := by
  unfold processVitals
  split_ifs <;> simp

/-- Without a continuous-update trigger, `processVitals` is the identity. -/
theorem processVitals_noTrig (snap : Snapshot) (inst : InstanceState) (t : ℚ)
    (h : diffTime snap = t) : processVitals snap inst t = (inst, t) := by
  unfold processVitals
  simp [h]

/-- On a continuous-update trigger, `processVitals` rewrites each cache
entry whose guard passes and advances the continuous watermark. -/
theorem processVitals_trig (snap : Snapshot) (inst : InstanceState) (t : ℚ)
    (h : diffTime snap ≠ t) :
    processVitals snap inst t =
      ({ inst with
          last_valid_heart_rate :=
            if snap.heart_rate < 300 ∧ snap.heart_rate ≠ sentinel then
              snap.heart_rate
            else inst.last_valid_heart_rate
          last_valid_oxygen :=
            if snap.oxygen ≤ 100 ∧ snap.oxygen ≠ sentinel then snap.oxygen
            else inst.last_valid_oxygen
          last_valid_temp :=
            if snap.temp_field.getD 0 > 20 ∧ snap.temp_field.getD 0 < 50 ∧
                snap.temp_field.getD 0 ≠ sentinel then
              snap.temp_field.getD 0
            else inst.last_valid_temp
          last_valid_resp_rate :=
            if snap.resp_field.getD 0 > 0 ∧ snap.resp_field.getD 0 < 100 ∧
                snap.resp_field.getD 0 ≠ sentinel then
              snap.resp_field.getD 0
            else inst.last_valid_resp_rate },
        diffTime snap) := by
  unfold processVitals
  rw [if_pos h]

/-- Projections of `listenerStep` in terms of its stages. -/
theorem listenerStep_proj (cfg : Config) (inst : InstanceState)
    (sess : SessionState) (inp : PollInput) :
    (listenerStep cfg inst sess inp).emitted =
      (processNBP cfg inp.snap (fetchIdentity inst inp.fetch).1
        (fetchIdentity inst inp.fetch).2
        (processVitals inp.snap
          (updateIdentity inst (fetchIdentity inst inp.fetch).1
            (fetchIdentity inst inp.fetch).2) sess.last_vital_time).1
        sess.last_NBP_time).emitted ∧
    (listenerStep cfg inst sess inp).warned =
      (processNBP cfg inp.snap (fetchIdentity inst inp.fetch).1
        (fetchIdentity inst inp.fetch).2
        (processVitals inp.snap
          (updateIdentity inst (fetchIdentity inst inp.fetch).1
            (fetchIdentity inst inp.fetch).2) sess.last_vital_time).1
        sess.last_NBP_time).warned ∧
    (listenerStep cfg inst sess inp).sess.last_NBP_time =
      (processNBP cfg inp.snap (fetchIdentity inst inp.fetch).1
        (fetchIdentity inst inp.fetch).2
        (processVitals inp.snap
          (updateIdentity inst (fetchIdentity inst inp.fetch).1
            (fetchIdentity inst inp.fetch).2) sess.last_vital_time).1
        sess.last_NBP_time).last_NBP_time ∧
    (listenerStep cfg inst sess inp).inst =
      (processVitals inp.snap
        (updateIdentity inst (fetchIdentity inst inp.fetch).1
          (fetchIdentity inst inp.fetch).2) sess.last_vital_time).1 ∧
    (listenerStep cfg inst sess inp).sess.last_vital_time =
      (processVitals inp.snap
        (updateIdentity inst (fetchIdentity inst inp.fetch).1
          (fetchIdentity inst inp.fetch).2) sess.last_vital_time).2 :=
  ⟨rfl, rfl, rfl, rfl, rfl⟩

/-- The NBP block fires (sends or warns) exactly when the timestamp is new
and the elapsed time positive. -/
theorem processNBP_fired_iff (cfg : Config) (snap : Snapshot)
    (pid fn : String) (inst : InstanceState) (last : Int) :
    ((processNBP cfg snap pid fn inst last).emitted.isSome = true ∨
      (processNBP cfg snap pid fn inst last).warned = true) ↔
      (snap.nbp_time - snap.conn_start > 0 ∧ last ≠ snap.nbp_time) := by
  by_cases h1 : snap.nbp_time - snap.conn_start > 0 ∧ last ≠ snap.nbp_time
  · by_cases h2 : pid ≠ "" <;> simp [processNBP, h1, h2]
  · simp only [processNBP]
    rw [if_neg h1]
    simp only [Option.isSome_none, Bool.false_eq_true, or_self, false_iff]
    exact h1

/-- The NBP watermark after the block: advanced to the snapshot timestamp
exactly when the trigger condition held. -/
theorem processNBP_watermark (cfg : Config) (snap : Snapshot)
    (pid fn : String) (inst : InstanceState) (last : Int) :
    (processNBP cfg snap pid fn inst last).last_NBP_time =
      if snap.nbp_time - snap.conn_start > 0 ∧ last ≠ snap.nbp_time then
        snap.nbp_time
      else last := by
  by_cases h1 : snap.nbp_time - snap.conn_start > 0 ∧ last ≠ snap.nbp_time
  · simp only [processNBP]
    rw [if_pos h1, if_pos h1]
    split_ifs <;> rfl
  · simp only [processNBP]
    rw [if_neg h1, if_neg h1]

/-- On a trigger with an empty patient id, the NBP block warns, emits
nothing and advances the watermark. -/
theorem processNBP_noId (cfg : Config) (snap : Snapshot) (fn : String)
    (inst : InstanceState) (last : Int)
    (h1 : snap.nbp_time - snap.conn_start > 0) (h2 : last ≠ snap.nbp_time) :
    processNBP cfg snap "" fn inst last =
      { last_NBP_time := snap.nbp_time, emitted := none, warned := true } := by
  unfold processNBP
  simp [h1, h2]

/-- On the `snapA` family both tick counters are zero, so the continuous
clock value is zero. -/
theorem diffTime_snapA (t : Int) (sys : ℚ) : diffTime (snapA t sys) = 0 := by
  norm_num [diffTime, snapA, tickUnit]

/-- On `snapLow` the continuous clock value is one. -/
theorem diffTime_snapLow : diffTime snapLow = 1 := by
  norm_num [diffTime, snapLow, tickUnit]

/-- Re-observing the stored identity changes nothing. -/
theorem updateIdentity_self (st : InstanceState) :
    updateIdentity st st.last_patient_id st.last_patient_name = st := by
  unfold updateIdentity
  simp

/-- With an empty patient id the stored identity is never written. -/
theorem updateIdentity_emptyId (st : InstanceState) (fn : String) :
    updateIdentity st "" fn = st := by
  unfold updateIdentity
  split_ifs with h1 h2 <;> simp_all

/-- `updateIdentity` never empties a non-empty stored patient id. -/
theorem updateIdentity_id_nonempty (st : InstanceState) (pid fn : String)
    (h : st.last_patient_id ≠ "") :
    (updateIdentity st pid fn).last_patient_id ≠ "" := by
  unfold updateIdentity
  split_ifs with h1 h2 <;> simp_all

/-- Without the trigger condition, the NBP block does nothing. -/
theorem processNBP_notTrig (cfg : Config) (snap : Snapshot)
    (pid fn : String) (inst : InstanceState) (last : Int)
    (h : ¬(snap.nbp_time - snap.conn_start > 0 ∧ last ≠ snap.nbp_time)) :
    processNBP cfg snap pid fn inst last =
      { last_NBP_time := last, emitted := none, warned := false } := by
  unfold processNBP
  rw [if_neg h]

/-- On a trigger with a non-empty patient id, the NBP block sends. -/
theorem processNBP_send (cfg : Config) (snap : Snapshot) (pid fn : String)
    (inst : InstanceState) (last : Int)
    (h1 : snap.nbp_time - snap.conn_start > 0) (h2 : last ≠ snap.nbp_time)
    (h3 : pid ≠ "") :
    processNBP cfg snap pid fn inst last =
      { last_NBP_time := snap.nbp_time
        emitted := some (send_vital_signs cfg fn pid
          inst.last_valid_heart_rate inst.last_valid_oxygen
          snap.bp_sys snap.bp_dias inst.last_valid_temp
          inst.last_valid_resp_rate snap.nbp_time)
        warned := false } := by
  unfold processNBP
  simp [h1, h2, h3]

/-- Projections of `debugStep` in terms of its stages. -/
theorem debugStep_proj (cfg : Config) (p : DebugPersistent) (s : DebugSession)
    (i : DebugPoll) :
    (debugStep cfg p s i).emitted =
      (processNBPDebug cfg i.snap (fetchIdentity p.inst i.fetch).1
        (fetchIdentity p.inst i.fetch).2
        (processVitals i.snap
          (updateIdentity p.inst (fetchIdentity p.inst i.fetch).1
            (fetchIdentity p.inst i.fetch).2) s.last_vital_time).1
        s.last_NBP_time).emitted ∧
    (debugStep cfg p s i).warned =
      (processNBPDebug cfg i.snap (fetchIdentity p.inst i.fetch).1
        (fetchIdentity p.inst i.fetch).2
        (processVitals i.snap
          (updateIdentity p.inst (fetchIdentity p.inst i.fetch).1
            (fetchIdentity p.inst i.fetch).2) s.last_vital_time).1
        s.last_NBP_time).warned ∧
    (debugStep cfg p s i).sess.last_NBP_time =
      (processNBPDebug cfg i.snap (fetchIdentity p.inst i.fetch).1
        (fetchIdentity p.inst i.fetch).2
        (processVitals i.snap
          (updateIdentity p.inst (fetchIdentity p.inst i.fetch).1
            (fetchIdentity p.inst i.fetch).2) s.last_vital_time).1
        s.last_NBP_time).last_NBP_time ∧
    (debugStep cfg p s i).pers.inst =
      (processVitals i.snap
        (updateIdentity p.inst (fetchIdentity p.inst i.fetch).1
          (fetchIdentity p.inst i.fetch).2) s.last_vital_time).1 :=
  ⟨rfl, rfl, rfl, rfl⟩

/-- A triggering debug NBP reading with systolic below 10 is skipped:
watermark advanced, nothing emitted, no warning. -/
theorem processNBPDebug_lowSys (cfg : Config) (snap : Snapshot)
    (pid fn : String) (inst : InstanceState) (last : Int)
    (h1 : snap.nbp_time - snap.conn_start > 0) (h2 : last ≠ snap.nbp_time)
    (h3 : snap.bp_sys < 10) :
    processNBPDebug cfg snap pid fn inst last =
      { last_NBP_time := snap.nbp_time, emitted := none, warned := false } := by
  unfold processNBPDebug
  rw [if_pos ⟨h1, h2⟩, if_pos h3]

/-- Without the trigger condition, the debug NBP block does nothing. -/
theorem processNBPDebug_notTrig (cfg : Config) (snap : Snapshot)
    (pid fn : String) (inst : InstanceState) (last : Int)
    (h : ¬(snap.nbp_time - snap.conn_start > 0 ∧ last ≠ snap.nbp_time)) :
    processNBPDebug cfg snap pid fn inst last =
      { last_NBP_time := last, emitted := none, warned := false } := by
  unfold processNBPDebug
  rw [if_neg h]

/-- On a debug trigger with plausible systolic and a non-empty patient id,
the debug NBP block sends. -/
theorem processNBPDebug_send (cfg : Config) (snap : Snapshot)
    (pid fn : String) (inst : InstanceState) (last : Int)
    (h1 : snap.nbp_time - snap.conn_start > 0) (h2 : last ≠ snap.nbp_time)
    (h3 : ¬snap.bp_sys < 10) (h4 : pid ≠ "") :
    processNBPDebug cfg snap pid fn inst last =
      { last_NBP_time := snap.nbp_time
        emitted := some (send_vital_signs cfg fn pid
          inst.last_valid_heart_rate inst.last_valid_oxygen
          snap.bp_sys snap.bp_dias inst.last_valid_temp
          inst.last_valid_resp_rate snap.nbp_time)
        warned := false } := by
  unfold processNBPDebug
  rw [if_pos ⟨h1, h2⟩, if_neg h3, if_pos h4]

/-- `fetchIdentity` on the fixed fixture identity resolves the same pair
from any stored state. -/
theorem fetchIdentity_fixture (inst : InstanceState) :
    fetchIdentity inst (some ⟨"ID1", "John", "Doe"⟩) = ("ID1", "John Doe") :=
  rfl

/-- A whitespace-free list does not start with whitespace. -/
theorem noLeadWS_of_noSpace (t : List Char) (h : noSpaceChar t = true) :
    noLeadWS t = true := by
  cases t with
  | nil => rfl
  | cons a t =>
    simp only [noSpaceChar, List.all_cons, Bool.and_eq_true] at h
    simp only [noLeadWS, h.1]

/-- Reversal preserves being whitespace-free. -/
theorem noSpaceChar_reverse (t : List Char) :
    noSpaceChar t.reverse = noSpaceChar t := by
  simp [noSpaceChar, List.all_eq_true]

/-- The head of an append with a non-empty left part is the left head. -/
theorem noLeadWS_append (l l' : List Char) (h : l ≠ []) :
    noLeadWS (l ++ l') = noLeadWS l := by
  cases l with
  | nil => exact absurd rfl h
  | cons a t => rfl

/-- `splitWSGo` produces only non-empty whitespace-free tokens. -/
theorem splitWSGo_ok : ∀ (cs w : List Char), noSpaceChar w = true →
    tokensOK (splitWSGo cs w) = true := by
  intro cs
  induction cs with
  | nil =>
    intro w hw
    simp only [splitWSGo]
    split_ifs with h
    · rfl
    · simp only [tokensOK, List.all_cons, List.all_nil, Bool.and_true,
        Bool.and_eq_true, noSpaceChar_reverse]
      refine ⟨?_, hw⟩
      simp [List.isEmpty_eq_true, h]
  | cons c rest ih =>
    intro w hw
    simp only [splitWSGo]
    split_ifs with h1 h2
    · exact ih [] rfl
    · have hr := ih [] rfl
      simp only [tokensOK, List.all_cons, Bool.and_eq_true,
        noSpaceChar_reverse] at hr ⊢
      refine ⟨⟨?_, hw⟩, hr⟩
      simp [List.isEmpty_eq_true, h2]
    · refine ih (c :: w) ?_
      simp only [noSpaceChar, List.all_cons, Bool.and_eq_true] at hw ⊢
      exact ⟨by simp [h1], hw⟩

/-- Joining non-empty tokens yields a non-empty list. -/
theorem joinSp_ne_nil : ∀ ts, tokensOK ts = true → ts ≠ [] →
    joinSp ts ≠ [] := by
  intro ts
  match ts with
  | [] => intro _ h; exact absurd rfl h
  | [t] =>
    intro h _
    simp only [tokensOK, List.all_cons, List.all_nil, Bool.and_true,
      Bool.and_eq_true] at h
    simpa [joinSp, List.isEmpty_eq_true] using h.1
  | t :: t' :: ts =>
    intro h _
    simp only [tokensOK, List.all_cons, Bool.and_eq_true] at h
    have ht : t ≠ [] := by
      have := h.1.1
      simpa [List.isEmpty_eq_true] using this
    simp only [joinSp]
    intro hc
    exact ht (List.append_eq_nil.mp hc).1

/-- Joining good tokens never starts with whitespace. -/
theorem noLead_joinSp : ∀ ts, tokensOK ts = true →
    noLeadWS (joinSp ts) = true := by
  intro ts
  match ts with
  | [] => intro _; rfl
  | [t] =>
    intro h
    simp only [tokensOK, List.all_cons, List.all_nil, Bool.and_true,
      Bool.and_eq_true] at h
    exact noLeadWS_of_noSpace t h.2
  | t :: t' :: ts =>
    intro h
    simp only [tokensOK, List.all_cons, Bool.and_eq_true] at h
    have ht : t ≠ [] := by
      have := h.1.1
      simpa [List.isEmpty_eq_true] using this
    simp only [joinSp]
    rw [noLeadWS_append t _ ht]
    exact noLeadWS_of_noSpace t h.1.2

/-- Joining good tokens never ends with whitespace. -/
theorem noTrail_joinSp : ∀ ts, tokensOK ts = true →
    noLeadWS (joinSp ts).reverse = true := by
  intro ts
  match ts with
  | [] => intro _; rfl
  | [t] =>
    intro h
    simp only [tokensOK, List.all_cons, List.all_nil, Bool.and_true,
      Bool.and_eq_true] at h
    have := noSpaceChar_reverse t
    exact noLeadWS_of_noSpace t.reverse (by rw [this]; exact h.2)
  | t :: t' :: ts =>
    intro h
    have htail : tokensOK (t' :: ts) = true := by
      simp only [tokensOK, List.all_cons, Bool.and_eq_true] at h ⊢
      exact h.2
    have hne := joinSp_ne_nil (t' :: ts) htail (by simp)
    have hrev : (joinSp (t' :: ts)).reverse ≠ [] := by
      simpa using hne
    simp only [joinSp, List.reverse_append, List.reverse_cons]
    rw [show (joinSp (t' :: ts)).reverse ++ [' '] ++ t.reverse =
      (joinSp (t' :: ts)).reverse ++ ([' '] ++ t.reverse) by
        rw [List.append_assoc]]
    rw [noLeadWS_append _ _ hrev]
    exact noTrail_joinSp (t' :: ts) htail

/-- A whitespace-free list has no adjacent whitespace pair. -/
theorem noDouble_of_noSpace : ∀ t, noSpaceChar t = true →
    noDouble t = true := by
  intro t
  match t with
  | [] => intro _; rfl
  | [a] => intro _; rfl
  | a :: b :: t =>
    intro h
    simp only [noSpaceChar, List.all_cons, Bool.and_eq_true] at h
    simp only [noDouble, Bool.and_eq_true]
    refine ⟨by simp [h.1], ?_⟩
    exact noDouble_of_noSpace (b :: t)
      (by simp only [noSpaceChar, List.all_cons, Bool.and_eq_true]
          exact h.2)

/-- Appending a single space and a trimmed, single-spaced tail to a
whitespace-free token keeps all whitespace runs at length one. -/
theorem noDouble_append_space : ∀ (t r : List Char), noSpaceChar t = true →
    noLeadWS r = true → noDouble r = true →
    noDouble (t ++ ' ' :: r) = true := by
  intro t
  match t with
  | [] =>
    intro r _ hlr hdr
    cases r with
    | nil => rfl
    | cons c r' =>
      simp only [List.nil_append, noDouble, Bool.and_eq_true]
      simp only [noLeadWS] at hlr
      exact ⟨by simp [hlr], hdr⟩
  | [a] =>
    intro r ht hlr hdr
    simp only [noSpaceChar, List.all_cons, List.all_nil, Bool.and_true,
      Bool.and_eq_true] at ht
    simp only [List.cons_append, List.nil_append, noDouble,
      Bool.and_eq_true]
    exact ⟨by simp [ht], noDouble_append_space [] r rfl hlr hdr⟩
  | a :: b :: t =>
    intro r ht hlr hdr
    simp only [noSpaceChar, List.all_cons, Bool.and_eq_true] at ht
    simp only [List.cons_append, noDouble, Bool.and_eq_true]
    refine ⟨by simp [ht.1], ?_⟩
    have := noDouble_append_space (b :: t) r
      (by simp only [noSpaceChar, List.all_cons, Bool.and_eq_true]
          exact ht.2) hlr hdr
    simpa using this

/-- Joining good tokens with single spaces has no adjacent whitespace. -/
theorem noDouble_joinSp : ∀ ts, tokensOK ts = true →
    noDouble (joinSp ts) = true := by
  intro ts
  match ts with
  | [] => intro _; rfl
  | [t] =>
    intro h
    simp only [tokensOK, List.all_cons, List.all_nil, Bool.and_true,
      Bool.and_eq_true] at h
    exact noDouble_of_noSpace t h.2
  | t :: t' :: ts =>
    intro h
    have htail : tokensOK (t' :: ts) = true := by
      simp only [tokensOK, List.all_cons, Bool.and_eq_true] at h ⊢
      exact h.2
    have hhead : noSpaceChar t = true := by
      simp only [tokensOK, List.all_cons, Bool.and_eq_true] at h
      exact h.1.2
    simp only [joinSp]
    exact noDouble_append_space t (joinSp (t' :: ts)) hhead
      (noLead_joinSp (t' :: ts) htail) (noDouble_joinSp (t' :: ts) htail)

/-! ## Claim theorems -/

/-- C5: For every snapshot, the NBP trigger fires (the listener either
emits or logs the missing-patient warning) if and only if the snapshot's
absolute BP timestamp differs from the stored NBP watermark and the
elapsed time `bpTimestamp - connectionStartTimestamp` is strictly
positive; when the elapsed time is zero or negative the NBP watermark is
left unchanged. -/
theorem nbp_trigger_fires_iff (cfg : Config) (inst : InstanceState)
    (sess : SessionState) (inp : PollInput) :
    (((listenerStep cfg inst sess inp).emitted.isSome = true ∨
      (listenerStep cfg inst sess inp).warned = true) ↔
      (inp.snap.nbp_time ≠ sess.last_NBP_time ∧
        inp.snap.nbp_time - inp.snap.conn_start > 0)) ∧
    (inp.snap.nbp_time - inp.snap.conn_start ≤ 0 →
      (listenerStep cfg inst sess inp).sess.last_NBP_time =
        sess.last_NBP_time) := by
  obtain ⟨he, hw, hn, -, -⟩ := listenerStep_proj cfg inst sess inp
  constructor
  · rw [he, hw, processNBP_fired_iff]
    exact ⟨fun h => ⟨h.2.symm, h.1⟩, fun h => ⟨h.2, h.1.symm⟩⟩
  · intro hle
    rw [hn, processNBP_watermark, if_neg]
    rintro ⟨h1, -⟩
    omega

/-- Witness for C5 at a concrete stale snapshot (elapsed time negative). -/
theorem nbp_trigger_fires_iff_witness :
    (((listenerStep cfg0 initInstance freshSession (inpA (-5))).emitted.isSome = true ∨
      (listenerStep cfg0 initInstance freshSession (inpA (-5))).warned = true) ↔
      ((inpA (-5)).snap.nbp_time ≠ freshSession.last_NBP_time ∧
        (inpA (-5)).snap.nbp_time - (inpA (-5)).snap.conn_start > 0)) ∧
    (listenerStep cfg0 initInstance freshSession (inpA (-5))).sess.last_NBP_time =
      freshSession.last_NBP_time :=
  ⟨(nbp_trigger_fires_iff cfg0 initInstance freshSession (inpA (-5))).1,
   (nbp_trigger_fires_iff cfg0 initInstance freshSession (inpA (-5))).2 (by decide)⟩

/-- C6: On an NBP trigger for which no non-empty patient id is available
(the id resolved from the fetch with fallback to the last-known identity
is empty), the iteration emits nothing, logs the missing-patient warning,
leaves every last-valid cache entry unchanged, and still advances the NBP
watermark to the triggering timestamp.  (The hypothesis
`diffTime inp.snap = sess.last_vital_time` isolates the NBP path: a
continuous-update trigger in the same poll may legitimately update the
cache through the independent continuous path.) -/
theorem nbp_missing_patient_discard (cfg : Config) (inst : InstanceState)
    (sess : SessionState) (inp : PollInput)
    (h1 : inp.snap.nbp_time ≠ sess.last_NBP_time)
    (h2 : inp.snap.nbp_time - inp.snap.conn_start > 0)
    (hid : (fetchIdentity inst inp.fetch).1 = "")
    (hct : diffTime inp.snap = sess.last_vital_time) :
    (listenerStep cfg inst sess inp).emitted = none ∧
    (listenerStep cfg inst sess inp).warned = true ∧
    (listenerStep cfg inst sess inp).inst.last_valid_heart_rate =
      inst.last_valid_heart_rate ∧
    (listenerStep cfg inst sess inp).inst.last_valid_oxygen =
      inst.last_valid_oxygen ∧
    (listenerStep cfg inst sess inp).inst.last_valid_temp =
      inst.last_valid_temp ∧
    (listenerStep cfg inst sess inp).inst.last_valid_resp_rate =
      inst.last_valid_resp_rate ∧
    (listenerStep cfg inst sess inp).sess.last_NBP_time =
      inp.snap.nbp_time := by
  obtain ⟨he, hw, hn, hi, -⟩ := listenerStep_proj cfg inst sess inp
  have hpv := processVitals_noTrig inp.snap
    (updateIdentity inst (fetchIdentity inst inp.fetch).1
      (fetchIdentity inst inp.fetch).2) sess.last_vital_time hct
  have hnbp := processNBP_noId cfg inp.snap (fetchIdentity inst inp.fetch).2
    (updateIdentity inst (fetchIdentity inst inp.fetch).1
      (fetchIdentity inst inp.fetch).2) sess.last_NBP_time h2 (Ne.symm h1)
  rw [he, hw, hn, hi, hpv]
  rw [hid] at hnbp ⊢
  obtain ⟨hc1, hc2, hc3, hc4⟩ := updateIdentity_cache inst ""
    (fetchIdentity inst inp.fetch).2
  rw [hnbp]
  exact ⟨rfl, rfl, hc1, hc2, hc3, hc4, rfl⟩

/-- Witness for C6: a concrete trigger with no patient id anywhere. -/
theorem nbp_missing_patient_discard_witness :
    (listenerStep cfg0 initInstance freshSession
      { fetch := none, snap := snapA 100 120 }).emitted = none ∧
    (listenerStep cfg0 initInstance freshSession
      { fetch := none, snap := snapA 100 120 }).warned = true ∧
    (listenerStep cfg0 initInstance freshSession
      { fetch := none, snap := snapA 100 120 }).inst.last_valid_heart_rate =
      initInstance.last_valid_heart_rate ∧
    (listenerStep cfg0 initInstance freshSession
      { fetch := none, snap := snapA 100 120 }).inst.last_valid_oxygen =
      initInstance.last_valid_oxygen ∧
    (listenerStep cfg0 initInstance freshSession
      { fetch := none, snap := snapA 100 120 }).inst.last_valid_temp =
      initInstance.last_valid_temp ∧
    (listenerStep cfg0 initInstance freshSession
      { fetch := none, snap := snapA 100 120 }).inst.last_valid_resp_rate =
      initInstance.last_valid_resp_rate ∧
    (listenerStep cfg0 initInstance freshSession
      { fetch := none, snap := snapA 100 120 }).sess.last_NBP_time =
      ({ fetch := none, snap := snapA 100 120 } : PollInput).snap.nbp_time :=
  nbp_missing_patient_discard cfg0 initInstance freshSession
    { fetch := none, snap := snapA 100 120 }
    (by decide) (by decide) (by decide) (diffTime_snapA 100 120)

/-- C9: When the patient-data fetch raises (`inp.fetch = none`) or returns
fields that are empty after stripping, the iteration resolves its patient
id and full name to the previously stored values and the stored last-known
identity is left untouched: a failed or empty fetch never clears it. -/
theorem failed_fetch_keeps_identity (cfg : Config) (inst : InstanceState)
    (sess : SessionState) (inp : PollInput)
    (h : inp.fetch = none ∨ ∃ r, inp.fetch = some r ∧ pyStrip r.pid = "" ∧
      pyStrip r.prename = "" ∧ pyStrip r.pname = "") :
    fetchIdentity inst inp.fetch =
      (inst.last_patient_id, inst.last_patient_name) ∧
    (listenerStep cfg inst sess inp).inst.last_patient_id =
      inst.last_patient_id ∧
    (listenerStep cfg inst sess inp).inst.last_patient_name =
      inst.last_patient_name := by
  have hfi : fetchIdentity inst inp.fetch =
      (inst.last_patient_id, inst.last_patient_name) := by
    rcases h with hnone | ⟨r, hsome, hpid, hpre, hpn⟩
    · rw [hnone]
      unfold fetchIdentity
      rw [ite_ne_empty_self, ite_ne_empty_self]
    · rw [hsome]
      unfold fetchIdentity
      have e1 : (if r.pid ≠ "" then pyStrip r.pid else "") = "" := by
        split_ifs <;> simp [hpid]
      have e2 : (if r.prename ≠ "" then pyStrip r.prename else "") = "" := by
        split_ifs <;> simp [hpre]
      have e3 : (if r.pname ≠ "" then pyStrip r.pname else "") = "" := by
        split_ifs <;> simp [hpn]
      simp only [e1, e2, e3]
      have e4 : pyStrip ("" ++ " " ++ "") = "" := by decide
      simp only [e4, ite_ne_empty_self]
      simp
  refine ⟨hfi, ?_, ?_⟩
  · obtain ⟨-, -, -, hi, -⟩ := listenerStep_proj cfg inst sess inp
    rw [hi, hfi]
    simp only [updateIdentity_self]
    exact (processVitals_identity inp.snap inst sess.last_vital_time).1
  · obtain ⟨-, -, -, hi, -⟩ := listenerStep_proj cfg inst sess inp
    rw [hi, hfi]
    simp only [updateIdentity_self]
    exact (processVitals_identity inp.snap inst sess.last_vital_time).2

/-- Witness for C9: a fetch returning whitespace-only fields leaves a
stored identity in place. -/
theorem failed_fetch_keeps_identity_witness :
    fetchIdentity instCache
      ({ fetch := some ⟨"", "  ", ""⟩, snap := snapA 100 120 } : PollInput).fetch =
      (instCache.last_patient_id, instCache.last_patient_name) ∧
    (listenerStep cfg0 instCache freshSession
      { fetch := some ⟨"", "  ", ""⟩, snap := snapA 100 120 }).inst.last_patient_id =
      instCache.last_patient_id ∧
    (listenerStep cfg0 instCache freshSession
      { fetch := some ⟨"", "  ", ""⟩, snap := snapA 100 120 }).inst.last_patient_name =
      instCache.last_patient_name :=
  failed_fetch_keeps_identity cfg0 instCache freshSession
    { fetch := some ⟨"", "  ", ""⟩, snap := snapA 100 120 }
    (Or.inr ⟨⟨"", "  ", ""⟩, rfl, by decide, by decide, by decide⟩)

/-- C10: The stored last-known identity is only ever replaced in an
iteration whose (fallback-resolved) patient id is non-empty; a non-empty
stored patient id stays non-empty for the rest of the run; and in an
iteration whose resolved patient id is empty — even when the resolved
full name differs from the stored one — both stored fields are left
unchanged.  ("Newly observed patient id" is the `patient_id` variable the
iteration works with, i.e. the fetched id after fallback to the stored
one.) -/
theorem stored_identity_update_guard :
    (∀ (cfg : Config) (inst : InstanceState) (sess : SessionState)
        (inp : PollInput),
      ((listenerStep cfg inst sess inp).inst.last_patient_id ≠
          inst.last_patient_id ∨
        (listenerStep cfg inst sess inp).inst.last_patient_name ≠
          inst.last_patient_name) →
      (fetchIdentity inst inp.fetch).1 ≠ "") ∧
    (∀ (cfg : Config) (inst : InstanceState) (sess : SessionState)
        (l : List PollInput), inst.last_patient_id ≠ "" →
      (runList cfg inst sess l).1.1.last_patient_id ≠ "") ∧
    (∀ (cfg : Config) (inst : InstanceState) (sess : SessionState)
        (inp : PollInput), (fetchIdentity inst inp.fetch).1 = "" →
      (listenerStep cfg inst sess inp).inst.last_patient_id =
        inst.last_patient_id ∧
      (listenerStep cfg inst sess inp).inst.last_patient_name =
        inst.last_patient_name) := by
  have key : ∀ (cfg : Config) (inst : InstanceState) (sess : SessionState)
      (inp : PollInput), (fetchIdentity inst inp.fetch).1 = "" →
      (listenerStep cfg inst sess inp).inst.last_patient_id =
        inst.last_patient_id ∧
      (listenerStep cfg inst sess inp).inst.last_patient_name =
        inst.last_patient_name := by
    intro cfg inst sess inp hid
    obtain ⟨-, -, -, hi, -⟩ := listenerStep_proj cfg inst sess inp
    obtain ⟨hpv1, hpv2⟩ := processVitals_identity inp.snap
      (updateIdentity inst (fetchIdentity inst inp.fetch).1
        (fetchIdentity inst inp.fetch).2) sess.last_vital_time
    rw [hi]
    rw [hpv1, hpv2, hid, updateIdentity_emptyId]
    exact ⟨rfl, rfl⟩
  have mono : ∀ (cfg : Config) (inst : InstanceState) (sess : SessionState)
      (inp : PollInput), inst.last_patient_id ≠ "" →
      (listenerStep cfg inst sess inp).inst.last_patient_id ≠ "" := by
    intro cfg inst sess inp hne
    obtain ⟨-, -, -, hi, -⟩ := listenerStep_proj cfg inst sess inp
    obtain ⟨hpv1, -⟩ := processVitals_identity inp.snap
      (updateIdentity inst (fetchIdentity inst inp.fetch).1
        (fetchIdentity inst inp.fetch).2) sess.last_vital_time
    rw [hi, hpv1]
    exact updateIdentity_id_nonempty inst _ _ hne
  refine ⟨?_, ?_, key⟩
  · intro cfg inst sess inp hch
    by_contra hid
    obtain ⟨k1, k2⟩ := key cfg inst sess inp hid
    rcases hch with hc | hc
    · exact hc k1
    · exact hc k2
  · intro cfg inst sess l
    induction l generalizing inst sess with
    | nil => intro h; exact h
    | cons a t ih =>
      intro h
      have := mono cfg inst sess a h
      simp only [runList]
      exact ih _ _ this

/-- Witness for C10: concrete discharges of all three parts. -/
theorem stored_identity_update_guard_witness :
    (((listenerStep cfg0 initInstance freshSession (inpA 100)).inst.last_patient_id ≠
        initInstance.last_patient_id ∨
      (listenerStep cfg0 initInstance freshSession (inpA 100)).inst.last_patient_name ≠
        initInstance.last_patient_name) →
      (fetchIdentity initInstance (inpA 100).fetch).1 ≠ "") ∧
    (runList cfg0 instCache freshSession [inpA 100]).1.1.last_patient_id ≠ "" ∧
    ((listenerStep cfg0 instNoId freshSession
        { fetch := some ⟨"", " Jane ", ""⟩, snap := snapA 100 120 }).inst.last_patient_id =
      instNoId.last_patient_id ∧
     (listenerStep cfg0 instNoId freshSession
        { fetch := some ⟨"", " Jane ", ""⟩, snap := snapA 100 120 }).inst.last_patient_name =
      instNoId.last_patient_name) := by
  refine ⟨stored_identity_update_guard.1 cfg0 initInstance freshSession (inpA 100),
    stored_identity_update_guard.2.1 cfg0 instCache freshSession [inpA 100] (by decide),
    stored_identity_update_guard.2.2 cfg0 instNoId freshSession
      { fetch := some ⟨"", " Jane ", ""⟩, snap := snapA 100 120 } ?_⟩
  decide

/-- C7: Every payload built by `send_vital_signs` carries `patient_code`
(the cleaned patient id) and `measured_at` (the trigger timestamp), and
carries each optional field exactly when its value passes the
sanitization bounds: systolic iff `0 < v < 300` (as an integer),
diastolic iff `0 < v < 200` (integer), pulse rate iff `0 < v < 300`
(integer), SpO2 iff `0 < v ≤ 100` (rounded to 1 decimal), temperature
iff `20 < v < 50` (rounded to 1 decimal), respiratory rate iff
`0 < v < 100` (integer). -/
theorem send_vital_signs_payload (cfg : Config) (pn pid : String)
    (hr ox sys dias tp rr : ℚ) (ts : Int) :
    (send_vital_signs cfg pn pid hr ox sys dias tp rr ts).payload.patient_code =
      normalizeWS pid ∧
    (send_vital_signs cfg pn pid hr ox sys dias tp rr ts).payload.measured_at =
      ts ∧
    ((send_vital_signs cfg pn pid hr ox sys dias tp rr ts).payload.blood_pressure_systolic.isSome =
        true ↔ (0 < sys ∧ sys < 300)) ∧
    ((send_vital_signs cfg pn pid hr ox sys dias tp rr ts).payload.blood_pressure_diastolic.isSome =
        true ↔ (0 < dias ∧ dias < 200)) ∧
    ((send_vital_signs cfg pn pid hr ox sys dias tp rr ts).payload.pulse_rate.isSome =
        true ↔ (0 < hr ∧ hr < 300)) ∧
    ((send_vital_signs cfg pn pid hr ox sys dias tp rr ts).payload.spo2.isSome =
        true ↔ (0 < ox ∧ ox ≤ 100)) ∧
    ((send_vital_signs cfg pn pid hr ox sys dias tp rr ts).payload.temperature.isSome =
        true ↔ (20 < tp ∧ tp < 50)) ∧
    ((send_vital_signs cfg pn pid hr ox sys dias tp rr ts).payload.respiratory_rate.isSome =
        true ↔ (0 < rr ∧ rr < 100)) ∧
    (0 < ox ∧ ox ≤ 100 →
      (send_vital_signs cfg pn pid hr ox sys dias tp rr ts).payload.spo2 =
        some (round1 ox)) ∧
    (20 < tp ∧ tp < 50 →
      (send_vital_signs cfg pn pid hr ox sys dias tp rr ts).payload.temperature =
        some (round1 tp)) ∧
    (0 < sys ∧ sys < 300 →
      (send_vital_signs cfg pn pid hr ox sys dias tp rr ts).payload.blood_pressure_systolic =
        some (pyInt sys)) ∧
    (0 < hr ∧ hr < 300 →
      (send_vital_signs cfg pn pid hr ox sys dias tp rr ts).payload.pulse_rate =
        some (pyInt hr)) := by
  refine ⟨rfl, rfl, ?_, ?_, ?_, ?_, ?_, ?_, ?_, ?_, ?_, ?_⟩ <;>
    simp only [send_vital_signs] <;>
    split_ifs with h <;>
    simp_all [and_comm]

/-- Witness for C7 at concrete values straddling the bounds. -/
theorem send_vital_signs_payload_witness :
    (send_vital_signs cfg0 "John Doe" "ID1" 72 98 120 80 37 0 100).payload.patient_code =
      normalizeWS "ID1" ∧
    (send_vital_signs cfg0 "John Doe" "ID1" 72 98 120 80 37 0 100).payload.measured_at =
      100 ∧
    ((send_vital_signs cfg0 "John Doe" "ID1" 72 98 120 80 37 0 100).payload.respiratory_rate.isSome =
      true ↔ ((0:ℚ) < 0 ∧ (0:ℚ) < 100)) ∧
    (send_vital_signs cfg0 "John Doe" "ID1" 72 98 120 80 37 0 100).payload.spo2 =
      some (round1 98) ∧
    (send_vital_signs cfg0 "John Doe" "ID1" 72 98 120 80 37 0 100).payload.pulse_rate =
      some (pyInt 72) := by
  obtain ⟨h1, h2, -, -, -, -, -, h8, h9, -, -, h12⟩ :=
    send_vital_signs_payload cfg0 "John Doe" "ID1" 72 98 120 80 37 0 100
  exact ⟨h1, h2, h8, h9 (by constructor <;> decide), h12 (by constructor <;> decide)⟩

/-- C2 as stated is refuted: on a continuous-update trigger, an incoming
heart rate of 0 and SpO2 of 0 — values at (below) the claimed lower
bounds `0 < v` — overwrite the cached values 72 and 98, because the code
checks only the upper bound for these two channels. -/
theorem cache_lower_bound_counterexample :
    (listenerStep cfg0 instCache freshSession
      { fetch := none, snap := snapLow }).inst.last_valid_heart_rate = 0 ∧
    (listenerStep cfg0 instCache freshSession
      { fetch := none, snap := snapLow }).inst.last_valid_oxygen = 0 ∧
    instCache.last_valid_heart_rate = 72 ∧
    instCache.last_valid_oxygen = 98 ∧
    snapLow.heart_rate = 0 ∧
    snapLow.oxygen = 0 ∧
    diffTime snapLow ≠ freshSession.last_vital_time := by
  refine ⟨?_, ?_, by decide, by decide, by decide, by decide,
    by rw [diffTime_snapLow]; decide⟩ <;>
  norm_num [listenerStep, processVitals, processNBP, fetchIdentity,
    updateIdentity, diffTime, snapLow, instCache, cfg0, freshSession,
    tickUnit, sentinel]

/-- C2 amended: on a continuous-update trigger the last-valid cache is
rewritten under exactly the code's guards — heart rate `v < 300 ∧
v ≠ 8388607` (no lower bound: zero and negative values overwrite), SpO2
`v ≤ 100 ∧ v ≠ 8388607` (no lower bound), temperature
`20 < v < 50 ∧ v ≠ 8388607`, respiratory rate `0 < v < 100 ∧
v ≠ 8388607`; a value failing its guard leaves the entry unchanged. -/
theorem cache_update_conditions (cfg : Config) (inst : InstanceState)
    (sess : SessionState) (inp : PollInput)
    (h : diffTime inp.snap ≠ sess.last_vital_time) :
    (listenerStep cfg inst sess inp).inst.last_valid_heart_rate =
      (if inp.snap.heart_rate < 300 ∧ inp.snap.heart_rate ≠ sentinel then
        inp.snap.heart_rate
      else inst.last_valid_heart_rate) ∧
    (listenerStep cfg inst sess inp).inst.last_valid_oxygen =
      (if inp.snap.oxygen ≤ 100 ∧ inp.snap.oxygen ≠ sentinel then
        inp.snap.oxygen
      else inst.last_valid_oxygen) ∧
    (listenerStep cfg inst sess inp).inst.last_valid_temp =
      (if inp.snap.temp_field.getD 0 > 20 ∧ inp.snap.temp_field.getD 0 < 50 ∧
          inp.snap.temp_field.getD 0 ≠ sentinel then
        inp.snap.temp_field.getD 0
      else inst.last_valid_temp) ∧
    (listenerStep cfg inst sess inp).inst.last_valid_resp_rate =
      (if inp.snap.resp_field.getD 0 > 0 ∧ inp.snap.resp_field.getD 0 < 100 ∧
          inp.snap.resp_field.getD 0 ≠ sentinel then
        inp.snap.resp_field.getD 0
      else inst.last_valid_resp_rate) := by
  obtain ⟨-, -, -, hi, -⟩ := listenerStep_proj cfg inst sess inp
  have hpv := processVitals_trig inp.snap
    (updateIdentity inst (fetchIdentity inst inp.fetch).1
      (fetchIdentity inst inp.fetch).2) sess.last_vital_time h
  obtain ⟨hc1, hc2, hc3, hc4⟩ := updateIdentity_cache inst
    (fetchIdentity inst inp.fetch).1 (fetchIdentity inst inp.fetch).2
  rw [hi, hpv]
  simp only [hc1, hc2, hc3, hc4]
  exact ⟨trivial, trivial, trivial, trivial⟩

/-- Witness for C2's amended theorem on the concrete low-value snapshot. -/
theorem cache_update_conditions_witness :
    (listenerStep cfg0 instCache freshSession
      { fetch := none, snap := snapLow }).inst.last_valid_heart_rate =
      (if snapLow.heart_rate < 300 ∧ snapLow.heart_rate ≠ sentinel then
        snapLow.heart_rate
      else instCache.last_valid_heart_rate) ∧
    (listenerStep cfg0 instCache freshSession
      { fetch := none, snap := snapLow }).inst.last_valid_oxygen =
      (if snapLow.oxygen ≤ 100 ∧ snapLow.oxygen ≠ sentinel then snapLow.oxygen
      else instCache.last_valid_oxygen) ∧
    (listenerStep cfg0 instCache freshSession
      { fetch := none, snap := snapLow }).inst.last_valid_temp =
      (if snapLow.temp_field.getD 0 > 20 ∧ snapLow.temp_field.getD 0 < 50 ∧
          snapLow.temp_field.getD 0 ≠ sentinel then
        snapLow.temp_field.getD 0
      else instCache.last_valid_temp) ∧
    (listenerStep cfg0 instCache freshSession
      { fetch := none, snap := snapLow }).inst.last_valid_resp_rate =
      (if snapLow.resp_field.getD 0 > 0 ∧ snapLow.resp_field.getD 0 < 100 ∧
          snapLow.resp_field.getD 0 ≠ sentinel then
        snapLow.resp_field.getD 0
      else instCache.last_valid_resp_rate) :=
  cache_update_conditions cfg0 instCache freshSession
    { fetch := none, snap := snapLow }
    (by rw [diffTime_snapLow]; decide)

/-- C1 as stated is refuted: within one session the watermark remembers
only the immediately-preceding NBP timestamp, so the poll sequence with
NBP timestamps 100, 200, 100 emits the timestamp 100 twice — after 100
was processed once (watermark set to 100), a later poll observing 100
again (after 200 moved the watermark) re-emits. -/
theorem nbp_per_timestamp_counterexample :
    ((runList cfg0 initInstance freshSession
        [inpA 100, inpA 200, inpA 100]).2.filter
      (fun e => e.payload.measured_at == 100)).length = 2 ∧
    (runList cfg0 initInstance freshSession
      [inpA 100, inpA 200, inpA 100]).2.length = 3 := by
  constructor <;>
  · norm_num [runList, listenerStep, processVitals, processNBP,
      fetchIdentity, updateIdentity, diffTime, inpA, snapA, initInstance,
      cfg0, freshSession, tickUnit, sentinel, initNBPTime]
    decide

/-- C1 amended: repeated polls observing the NBP timestamp the watermark
currently holds emit nothing and leave the watermark in place; hence two
consecutive snapshots carrying the same NBP timestamp yield exactly one
emission in total (when the first triggers with a patient id available).
Re-emission of a timestamp is only possible after a different timestamp
has moved the watermark in between. -/
theorem nbp_no_reemission_while_watermark :
    (∀ (cfg : Config) (inst : InstanceState) (sess : SessionState)
        (inp : PollInput), sess.last_NBP_time = inp.snap.nbp_time →
      (listenerStep cfg inst sess inp).emitted = none ∧
      (listenerStep cfg inst sess inp).sess.last_NBP_time =
        sess.last_NBP_time) ∧
    (∀ (cfg : Config) (inst : InstanceState) (sess : SessionState)
        (inp₁ inp₂ : PollInput),
      inp₂.snap.nbp_time = inp₁.snap.nbp_time →
      sess.last_NBP_time ≠ inp₁.snap.nbp_time →
      inp₁.snap.nbp_time - inp₁.snap.conn_start > 0 →
      (fetchIdentity inst inp₁.fetch).1 ≠ "" →
      (runList cfg inst sess [inp₁, inp₂]).2.length = 1) := by
  have part1 : ∀ (cfg : Config) (inst : InstanceState) (sess : SessionState)
      (inp : PollInput), sess.last_NBP_time = inp.snap.nbp_time →
      (listenerStep cfg inst sess inp).emitted = none ∧
      (listenerStep cfg inst sess inp).sess.last_NBP_time =
        sess.last_NBP_time := by
    intro cfg inst sess inp h
    obtain ⟨he, -, hn, -, -⟩ := listenerStep_proj cfg inst sess inp
    have hcond : ¬(inp.snap.nbp_time - inp.snap.conn_start > 0 ∧
        sess.last_NBP_time ≠ inp.snap.nbp_time) := by
      rintro ⟨-, hne⟩
      exact hne h
    have hnbp := processNBP_notTrig cfg inp.snap
      (fetchIdentity inst inp.fetch).1 (fetchIdentity inst inp.fetch).2
      (processVitals inp.snap
        (updateIdentity inst (fetchIdentity inst inp.fetch).1
          (fetchIdentity inst inp.fetch).2) sess.last_vital_time).1
      sess.last_NBP_time hcond
    rw [he, hn, hnbp]
    exact ⟨rfl, rfl⟩
  refine ⟨part1, ?_⟩
  intro cfg inst sess i1 i2 hsame hnew hpos hid
  have hw1 : (listenerStep cfg inst sess i1).sess.last_NBP_time =
      i1.snap.nbp_time := by
    obtain ⟨-, -, hn, -, -⟩ := listenerStep_proj cfg inst sess i1
    rw [hn, processNBP_watermark, if_pos ⟨hpos, hnew⟩]
  have he1 : (listenerStep cfg inst sess i1).emitted.isSome = true := by
    obtain ⟨he, -, -, -, -⟩ := listenerStep_proj cfg inst sess i1
    rw [he, processNBP_send cfg i1.snap (fetchIdentity inst i1.fetch).1
      (fetchIdentity inst i1.fetch).2 _ sess.last_NBP_time hpos hnew hid]
    rfl
  have he2 := (part1 cfg (listenerStep cfg inst sess i1).inst
    (listenerStep cfg inst sess i1).sess i2 (by rw [hw1, hsame])).1
  simp only [runList]
  rw [he2]
  obtain ⟨c, hc⟩ := Option.isSome_iff_exists.mp he1
  rw [hc]
  rfl

/-- Witness for C1's amended theorem: the double observation of
timestamp 100 yields exactly one emission, and a poll whose timestamp the
watermark already holds emits nothing. -/
theorem nbp_no_reemission_while_watermark_witness :
    ((listenerStep cfg0 initInstance
        { last_vital_time := 0, last_NBP_time := 100, refresh_counter := 0 }
        (inpA 100)).emitted = none ∧
      (listenerStep cfg0 initInstance
        { last_vital_time := 0, last_NBP_time := 100, refresh_counter := 0 }
        (inpA 100)).sess.last_NBP_time =
        ({ last_vital_time := 0, last_NBP_time := 100, refresh_counter := 0 } :
          SessionState).last_NBP_time) ∧
    (runList cfg0 initInstance freshSession [inpA 100, inpA 100]).2.length = 1 :=
  ⟨nbp_no_reemission_while_watermark.1 cfg0 initInstance
      { last_vital_time := 0, last_NBP_time := 100, refresh_counter := 0 }
      (inpA 100) rfl,
    nbp_no_reemission_while_watermark.2 cfg0 initInstance freshSession
      (inpA 100) (inpA 100) rfl (by decide) (by decide) (by decide)⟩

/-- C3 as stated is refuted on the main listener (`VitalSignListener.run`
has no systolic guard): a triggering NBP snapshot with systolic 5 is not
discarded — it is emitted, with `blood_pressure_systolic = 5` in the
payload. -/
theorem low_systolic_counterexample :
    ((listenerStep cfg0 initInstance freshSession
        { fetch := some ⟨"ID1", "John", "Doe"⟩, snap := snapA 100 5 }).emitted.map
      (fun e => e.payload.blood_pressure_systolic)) = some (some 5) ∧
    (snapA 100 5).bp_sys = 5 := by
  refine ⟨?_, by decide⟩
  norm_num [listenerStep, processVitals, processNBP, fetchIdentity,
    updateIdentity, diffTime, snapA, initInstance, cfg0, freshSession,
    tickUnit, sentinel, initNBPTime]
  decide

/-- C3 amended: the systolic-below-10 guard exists only in the debug
listener's data-collection loop, and it discards silently: on a
triggering reading with `bp_sys < 10` the debug step emits nothing, logs
no warning, and advances the NBP watermark to the triggering timestamp,
so a subsequent poll observing the same timestamp neither emits nor moves
the watermark.  (The main listener emits such readings; see the
counterexample.) -/
theorem debug_low_systolic_skip (cfg : Config) (p : DebugPersistent)
    (s : DebugSession) (i : DebugPoll)
    (h1 : s.last_NBP_time ≠ i.snap.nbp_time)
    (h2 : i.snap.nbp_time - i.snap.conn_start > 0)
    (h3 : i.snap.bp_sys < 10) :
    (debugStep cfg p s i).emitted = none ∧
    (debugStep cfg p s i).warned = false ∧
    (debugStep cfg p s i).sess.last_NBP_time = i.snap.nbp_time ∧
    (∀ (cfg₂ : Config) (p₂ : DebugPersistent) (i₂ : DebugPoll),
      i₂.snap.nbp_time = i.snap.nbp_time →
      (debugStep cfg₂ p₂ (debugStep cfg p s i).sess i₂).emitted = none ∧
      (debugStep cfg₂ p₂ (debugStep cfg p s i).sess i₂).sess.last_NBP_time =
        i.snap.nbp_time) := by
  obtain ⟨he, hw, hn, -⟩ := debugStep_proj cfg p s i
  have hnbp := processNBPDebug_lowSys cfg i.snap
    (fetchIdentity p.inst i.fetch).1 (fetchIdentity p.inst i.fetch).2
    (processVitals i.snap
      (updateIdentity p.inst (fetchIdentity p.inst i.fetch).1
        (fetchIdentity p.inst i.fetch).2) s.last_vital_time).1
    s.last_NBP_time h2 h1 h3
  have hwm : (debugStep cfg p s i).sess.last_NBP_time = i.snap.nbp_time := by
    rw [hn, hnbp]
  refine ⟨by rw [he, hnbp], by rw [hw, hnbp], hwm, ?_⟩
  intro cfg₂ p₂ i₂ hsame
  obtain ⟨he₂, -, hn₂, -⟩ :=
    debugStep_proj cfg₂ p₂ (debugStep cfg p s i).sess i₂
  have hcond : ¬(i₂.snap.nbp_time - i₂.snap.conn_start > 0 ∧
      (debugStep cfg p s i).sess.last_NBP_time ≠ i₂.snap.nbp_time) := by
    rintro ⟨-, hne⟩
    exact hne (by rw [hwm, hsame])
  have hnbp₂ := processNBPDebug_notTrig cfg₂ i₂.snap
    (fetchIdentity p₂.inst i₂.fetch).1 (fetchIdentity p₂.inst i₂.fetch).2
    (processVitals i₂.snap
      (updateIdentity p₂.inst (fetchIdentity p₂.inst i₂.fetch).1
        (fetchIdentity p₂.inst i₂.fetch).2)
      (debugStep cfg p s i).sess.last_vital_time).1
    (debugStep cfg p s i).sess.last_NBP_time hcond
  constructor
  · rw [he₂, hnbp₂]
  · rw [hn₂, hnbp₂]
    exact hwm

/-- Witness for C3's amended theorem: a concrete debug poll with
systolic 5 at timestamp 100, followed by a second poll with the same
timestamp. -/
theorem debug_low_systolic_skip_witness :
    (debugStep cfg0 dpers0 freshDebugSession (dpoll 100 5)).emitted = none ∧
    (debugStep cfg0 dpers0 freshDebugSession (dpoll 100 5)).warned = false ∧
    (debugStep cfg0 dpers0 freshDebugSession (dpoll 100 5)).sess.last_NBP_time =
      (dpoll 100 5).snap.nbp_time ∧
    (∀ (cfg₂ : Config) (p₂ : DebugPersistent) (i₂ : DebugPoll),
      i₂.snap.nbp_time = (dpoll 100 5).snap.nbp_time →
      (debugStep cfg₂ p₂
        (debugStep cfg0 dpers0 freshDebugSession (dpoll 100 5)).sess i₂).emitted =
        none ∧
      (debugStep cfg₂ p₂
        (debugStep cfg0 dpers0 freshDebugSession (dpoll 100 5)).sess
          i₂).sess.last_NBP_time = (dpoll 100 5).snap.nbp_time) :=
  debug_low_systolic_skip cfg0 dpers0 freshDebugSession (dpoll 100 5)
    (by decide) (by decide) (by decide)

/-- C4 as stated is refuted: in the debug listener the watermarks are loop
locals re-initialised on every reconnection, so an NBP timestamp already
processed before the drop (100, emitted in session 1) is processed and
emitted again when observed after the reconnect. -/
theorem reconnect_watermark_counterexample :
    ((debugRun cfg0 dpers0 [[dpoll 100 120], [dpoll 100 120]]).2.map
      (fun e => e.payload.measured_at)) = [100, 100] := by
  norm_num [debugRun, debugSessionLoop, debugStep, processVitals,
    processNBPDebug, fetchIdentity, updateIdentity, diffTime, dpoll, snapA,
    dpers0, initInstance, cfg0, freshDebugSession, tickUnit, sentinel,
    initNBPTime]
  decide

/-- C4 amended: across a disconnect-reconnect cycle the per-channel
last-valid cache and last-known identity are retained — the second
session's emission is built from the persistent state carried out of the
first session, so a vital cached before the drop can populate the
post-reconnect consolidated event — but the watermarks are re-initialised
at session reopen, so an NBP timestamp already processed before the drop
is processed (and emitted) again when observed after the reconnect. -/
theorem debug_reconnect_cache_kept_watermark_reset
    (cfg : Config) (p : DebugPersistent) (i₁ i₂ : DebugPoll)
    (ha1 : i₁.active = true) (ha2 : i₂.active = true)
    (hsame : i₂.snap.nbp_time = i₁.snap.nbp_time)
    (hne : i₁.snap.nbp_time ≠ initNBPTime)
    (hpos1 : i₁.snap.nbp_time - i₁.snap.conn_start > 0)
    (hpos2 : i₂.snap.nbp_time - i₂.snap.conn_start > 0)
    (hsys1 : ¬i₁.snap.bp_sys < 10) (hsys2 : ¬i₂.snap.bp_sys < 10)
    (hid1 : (fetchIdentity p.inst i₁.fetch).1 ≠ "")
    (hid2 : (fetchIdentity
      (debugStep cfg p freshDebugSession i₁).pers.inst i₂.fetch).1 ≠ "")
    (hct2 : diffTime i₂.snap = 0) :
    (debugRun cfg p [[i₁], [i₂]]).2.length = 2 ∧
    (debugRun cfg p [[i₁], [i₂]]).2.get? 1 =
      some (send_vital_signs cfg
        (fetchIdentity
          (debugStep cfg p freshDebugSession i₁).pers.inst i₂.fetch).2
        (fetchIdentity
          (debugStep cfg p freshDebugSession i₁).pers.inst i₂.fetch).1
        (debugStep cfg p freshDebugSession i₁).pers.inst.last_valid_heart_rate
        (debugStep cfg p freshDebugSession i₁).pers.inst.last_valid_oxygen
        i₂.snap.bp_sys i₂.snap.bp_dias
        (debugStep cfg p freshDebugSession i₁).pers.inst.last_valid_temp
        (debugStep cfg p freshDebugSession i₁).pers.inst.last_valid_resp_rate
        i₂.snap.nbp_time) := by
  have hfreshn : freshDebugSession.last_NBP_time = initNBPTime := rfl
  have hfreshv : freshDebugSession.last_vital_time = 0 := rfl
  -- session 1 emits
  have e1 : (debugStep cfg p freshDebugSession i₁).emitted.isSome = true := by
    obtain ⟨he, -, -, -⟩ := debugStep_proj cfg p freshDebugSession i₁
    rw [he, processNBPDebug_send cfg i₁.snap (fetchIdentity p.inst i₁.fetch).1
      (fetchIdentity p.inst i₁.fetch).2 _ freshDebugSession.last_NBP_time
      hpos1 (by rw [hfreshn]; exact Ne.symm hne) hsys1 hid1]
    rfl
  -- session 2 step, from the carried persistent state and a fresh session
  have hpv2 := processVitals_noTrig i₂.snap
    (updateIdentity (debugStep cfg p freshDebugSession i₁).pers.inst
      (fetchIdentity (debugStep cfg p freshDebugSession i₁).pers.inst i₂.fetch).1
      (fetchIdentity (debugStep cfg p freshDebugSession i₁).pers.inst i₂.fetch).2)
    freshDebugSession.last_vital_time (by rw [hfreshv]; exact hct2)
  obtain ⟨hc1, hc2, hc3, hc4⟩ := updateIdentity_cache
    (debugStep cfg p freshDebugSession i₁).pers.inst
    (fetchIdentity (debugStep cfg p freshDebugSession i₁).pers.inst i₂.fetch).1
    (fetchIdentity (debugStep cfg p freshDebugSession i₁).pers.inst i₂.fetch).2
  have e2 : (debugStep cfg (debugStep cfg p freshDebugSession i₁).pers
      freshDebugSession i₂).emitted =
      some (send_vital_signs cfg
        (fetchIdentity
          (debugStep cfg p freshDebugSession i₁).pers.inst i₂.fetch).2
        (fetchIdentity
          (debugStep cfg p freshDebugSession i₁).pers.inst i₂.fetch).1
        (debugStep cfg p freshDebugSession i₁).pers.inst.last_valid_heart_rate
        (debugStep cfg p freshDebugSession i₁).pers.inst.last_valid_oxygen
        i₂.snap.bp_sys i₂.snap.bp_dias
        (debugStep cfg p freshDebugSession i₁).pers.inst.last_valid_temp
        (debugStep cfg p freshDebugSession i₁).pers.inst.last_valid_resp_rate
        i₂.snap.nbp_time) := by
    obtain ⟨he, -, -, -⟩ := debugStep_proj cfg
      (debugStep cfg p freshDebugSession i₁).pers freshDebugSession i₂
    rw [he, hpv2, processNBPDebug_send cfg i₂.snap _ _ _
      freshDebugSession.last_NBP_time hpos2
      (by rw [hfreshn, hsame]; exact Ne.symm hne) hsys2 hid2]
    rw [hc1, hc2, hc3, hc4]
  obtain ⟨c1, hcc1⟩ := Option.isSome_iff_exists.mp e1
  simp only [debugRun, debugSessionLoop, ha1, ha2, if_true, hcc1, e2,
    Option.toList_some, List.append_nil, List.nil_append]
  constructor
  · rfl
  · rfl

/-- Witness for C4's amended theorem: both sessions observe timestamp 100
with systolic 120 and the fixture identity. -/
theorem debug_reconnect_cache_kept_watermark_reset_witness :
    (debugRun cfg0 dpers0 [[dpoll 100 120], [dpoll 100 120]]).2.length = 2 ∧
    (debugRun cfg0 dpers0 [[dpoll 100 120], [dpoll 100 120]]).2.get? 1 =
      some (send_vital_signs cfg0
        (fetchIdentity
          (debugStep cfg0 dpers0 freshDebugSession (dpoll 100 120)).pers.inst
          (dpoll 100 120).fetch).2
        (fetchIdentity
          (debugStep cfg0 dpers0 freshDebugSession (dpoll 100 120)).pers.inst
          (dpoll 100 120).fetch).1
        (debugStep cfg0 dpers0 freshDebugSession
          (dpoll 100 120)).pers.inst.last_valid_heart_rate
        (debugStep cfg0 dpers0 freshDebugSession
          (dpoll 100 120)).pers.inst.last_valid_oxygen
        (dpoll 100 120).snap.bp_sys (dpoll 100 120).snap.bp_dias
        (debugStep cfg0 dpers0 freshDebugSession
          (dpoll 100 120)).pers.inst.last_valid_temp
        (debugStep cfg0 dpers0 freshDebugSession
          (dpoll 100 120)).pers.inst.last_valid_resp_rate
        (dpoll 100 120).snap.nbp_time) :=
  debug_reconnect_cache_kept_watermark_reset cfg0 dpers0
    (dpoll 100 120) (dpoll 100 120) rfl rfl rfl (by decide) (by decide)
    (by decide) (by decide) (by decide)
    (by decide)
    (by rw [show (dpoll 100 120).fetch = some ⟨"ID1", "John", "Doe"⟩ from rfl,
          fetchIdentity_fixture]; decide)
    (by rw [show (dpoll 100 120).snap = snapA 100 120 from rfl,
          diffTime_snapA])

/-- C8: Patient identity fields are whitespace-normalised before use in an
emitted record: for every string, the clean-up `' '.join(s.split())`
yields a value with no leading whitespace, no trailing whitespace and no
two adjacent whitespace characters (every internal run collapsed to a
single space); and concretely, a fetched identity with given name
`"  John   Michael "` and family name `" Doe"` reaches the emitted record
as the full name `"John Michael Doe"`, with the cleaned id as the
payload's `patient_code`. -/
theorem identity_whitespace_normalized :
    (∀ s : String, noLeadWS (normalizeWS s).data = true ∧
      noLeadWS (normalizeWS s).data.reverse = true ∧
      noDouble (normalizeWS s).data = true) ∧
    ((listenerStep cfg0 initInstance freshSession inpNorm).emitted.map
      SendCall.record_name = some "John Michael Doe") ∧
    ((listenerStep cfg0 initInstance freshSession inpNorm).emitted.map
      (fun e => e.payload.patient_code) = some "MRN 7") := by
  refine ⟨?_, ?_, ?_⟩
  · intro s
    have hok := splitWSGo_ok s.data [] rfl
    have hdata : (normalizeWS s).data = joinSp (splitWS s.data) := rfl
    rw [hdata]
    exact ⟨noLead_joinSp _ hok, noTrail_joinSp _ hok, noDouble_joinSp _ hok⟩
  all_goals
    norm_num [listenerStep, processVitals, processNBP, fetchIdentity,
      updateIdentity, diffTime, inpNorm, snapA, initInstance, cfg0,
      freshSession, tickUnit, sentinel, initNBPTime]
    decide
